import Mathlib

/-!
Shallow embedding of the dingo-sdk request-fanout / result-aggregation core
(`src/sdk/vector/vector_common.h`, `src/sdk/vector/vector_search_task.cc`,
`src/sdk/vector/vector_upsert_task.cc`,
`src/sdk/document/document_batch_query_task.cc`) together with proofs of the
frozen specification claims.

Modelling conventions:
* `float` / `double` payloads (vector components, distances, scalar fields)
  carry no arithmetic in the verified code: they are only copied and - for
  distances - compared.  They are therefore modelled as opaque `Int` bit
  patterns, with the comparison on distances modelled by the linear order
  on `Int`.
* A C++ `Status` is modelled as `Option Nat`: `none` is `Status::OK()`,
  `some e` is a non-OK status carrying error code `e`.
* Protobuf maps and C++ `std::map` are modelled as association lists in
  insertion order; sub-messages with presence are `Option` fields.
* A `glog` `CHECK` failure (process abort) is modelled by `Option`/`none`
  on the function that contains it.
-/

namespace DingoSDK

section Definitions

/-- Value type of a vector payload (`sdk::ValueType`). -/
inductive ValueType where
  | kFloat
  | kUint8
  | kInt8
deriving DecidableEq, Repr

/-- Scalar field type (`sdk::Type` used by scalar data columns). -/
inductive ScalarFieldType where
  | kBOOL
  | kINT64
  | kDOUBLE
  | kSTRING
deriving DecidableEq, Repr

/-- One scalar field (`sdk::ScalarField`): a C++ struct holding all four
possible members, of which only the one selected by the enclosing value's
`type` is meaningful.  `double_data` is an opaque bit pattern. -/
structure ScalarField where
  bool_data : Bool := false
  long_data : Int := 0
  double_data : Int := 0
  string_data : String := ""
deriving DecidableEq, Repr

/-- A typed scalar value (`sdk::ScalarValue`). -/
structure ScalarValue where
  type : ScalarFieldType
  fields : List ScalarField
deriving DecidableEq, Repr

/-- A vector payload (`sdk::Vector`).  `float_values` entries are opaque
`f32` bit patterns; `binary_values` entries are bytes (`uint8_t`). -/
structure Vector where
  dimension : Nat
  value_type : ValueType
  float_values : List Int
  binary_values : List Nat
deriving DecidableEq, Repr

/-- A vector with its primary key (`sdk::VectorWithId`). -/
structure VectorWithId where
  id : Int
  vector : Vector
  scalar_data : List (String × ScalarValue)
deriving DecidableEq, Repr

/-- Metric type (`sdk::MetricType`). -/
inductive MetricType where
  | kNoneMetricType
  | kL2
  | kInnerProduct
  | kCosine
  | kHamming
deriving DecidableEq, Repr

/-- A search candidate (`sdk::VectorWithDistance`).  `distance` is an opaque
`f32` bit pattern compared via the order on `Int`. -/
structure VectorWithDistance where
  vector_data : VectorWithId
  distance : Int
  metric_type : MetricType
deriving DecidableEq, Repr

/-- Wire-side value type enum (`pb::common::ValueType`), restricted to the
values the codec in `vector_common.h` produces and accepts. -/
inductive ValueTypePB where
  | FLOAT
  | UINT8
  | INT8_T
deriving DecidableEq, Repr

/-- Wire-side scalar field (`pb::common::ScalarField`); all members default
to the proto3 zero value. -/
structure ScalarFieldPB where
  bool_data : Bool := false
  long_data : Int := 0
  double_data : Int := 0
  string_data : String := ""
deriving DecidableEq, Repr

/-- Wire-side scalar value (`pb::common::ScalarValue`).  The wire field-type
enum is identified with the sdk enum: the converting functions
(`Type2InternalScalarFieldTypePB` and its inverse, from `sdk/types_util.h`,
outside this excerpt) are a fixed bijection between the two enums. -/
structure ScalarValuePB where
  field_type : ScalarFieldType
  fields : List ScalarFieldPB
deriving DecidableEq, Repr

/-- Wire-side vector (`pb::common::Vector`).  `binary_values` is a repeated
bytes field: each entry is a byte string, modelled as a list of bytes. -/
structure VectorPB where
  dimension : Nat := 0
  value_type : ValueTypePB := ValueTypePB.FLOAT
  float_values : List Int := []
  binary_values : List (List Nat) := []
deriving DecidableEq, Repr

/-- Wire-side vector with id (`pb::common::VectorWithId`). -/
structure VectorWithIdPB where
  id : Int := 0
  vector : VectorPB := {}
  scalar_data : List (String × ScalarValuePB) := []
deriving DecidableEq, Repr

/-- `ValueType2InternalValueTypePB` (vector_common.h:116).  Total here
because the model enum has exactly the supported values; the C++ default
branch is a `CHECK(false)`. -/
def ValueType2InternalValueTypePB : ValueType → ValueTypePB
  | ValueType.kFloat => ValueTypePB.FLOAT
  | ValueType.kUint8 => ValueTypePB.UINT8
  | ValueType.kInt8 => ValueTypePB.INT8_T

/-- Per-field body of `ScalarValue2InternalScalarValuePB` (vector_common.h:245):
copy the member selected by the value's type into the wire field, leaving the
other members at their proto defaults. -/
def encodeScalarField (t : ScalarFieldType) (f : ScalarField) : ScalarFieldPB :=
  match t with
  | ScalarFieldType.kBOOL => { bool_data := f.bool_data }
  | ScalarFieldType.kINT64 => { long_data := f.long_data }
  | ScalarFieldType.kDOUBLE => { double_data := f.double_data }
  | ScalarFieldType.kSTRING => { string_data := f.string_data }

/-- `ScalarValue2InternalScalarValuePB` (vector_common.h:245). -/
def ScalarValue2InternalScalarValuePB (sv : ScalarValue) : ScalarValuePB :=
  { field_type := sv.type
    fields := sv.fields.map (encodeScalarField sv.type) }

/-- Per-field body of `InternalScalarValuePB2ScalarValue` (vector_common.h:272):
read back the member selected by the decoded type; the other members of the
freshly constructed `ScalarField` stay default-initialized. -/
def decodeScalarField (t : ScalarFieldType) (f : ScalarFieldPB) : ScalarField :=
  match t with
  | ScalarFieldType.kBOOL => { bool_data := f.bool_data }
  | ScalarFieldType.kINT64 => { long_data := f.long_data }
  | ScalarFieldType.kDOUBLE => { double_data := f.double_data }
  | ScalarFieldType.kSTRING => { string_data := f.string_data }

/-- `InternalScalarValuePB2ScalarValue` (vector_common.h:272). -/
def InternalScalarValuePB2ScalarValue (pb : ScalarValuePB) : ScalarValue :=
  { type := pb.field_type
    fields := pb.fields.map (decodeScalarField pb.field_type) }

/-- `FillVectorWithIdPB` (vector_common.h:312).  When `with_id` is false the
wire id keeps its proto default 0.  Each byte of `binary_values` becomes a
one-byte string on the wire. -/
def FillVectorWithIdPB (vector_with_id : VectorWithId) (with_id : Bool) : VectorWithIdPB :=
  { id := if with_id then vector_with_id.id else 0
    vector :=
      { dimension := vector_with_id.vector.dimension
        value_type := ValueType2InternalValueTypePB vector_with_id.vector.value_type
        float_values := vector_with_id.vector.float_values
        binary_values := vector_with_id.vector.binary_values.map (fun b => [b]) }
    scalar_data := vector_with_id.scalar_data.map
      (fun kv => (kv.1, ScalarValue2InternalScalarValuePB kv.2)) }

/-- Wire value-type decoding branch of `InternalVectorIdPB2VectorWithId`
(vector_common.h:340). -/
def decodeValueTypePB : ValueTypePB → ValueType
  | ValueTypePB.FLOAT => ValueType.kFloat
  | ValueTypePB.UINT8 => ValueType.kUint8
  | ValueTypePB.INT8_T => ValueType.kInt8

/-- `InternalVectorIdPB2VectorWithId` (vector_common.h:334).  Each wire byte
string contributes its first byte (`binary_value[0]`). -/
def InternalVectorIdPB2VectorWithId (pb : VectorWithIdPB) : VectorWithId :=
  { id := pb.id
    vector :=
      { dimension := pb.vector.dimension
        value_type := decodeValueTypePB pb.vector.value_type
        float_values := pb.vector.float_values
        binary_values := pb.vector.binary_values.map (fun s => s.getD 0 0) }
    scalar_data := pb.scalar_data.map
      (fun kv => (kv.1, InternalScalarValuePB2ScalarValue kv.2)) }

/-- Logical equality of two scalar fields at a given type: agreement on the
member the type selects (the other struct members are not meaningful). -/
def ScalarFieldEquiv (t : ScalarFieldType) (a b : ScalarField) : Prop :=
  match t with
  | ScalarFieldType.kBOOL => a.bool_data = b.bool_data
  | ScalarFieldType.kINT64 => a.long_data = b.long_data
  | ScalarFieldType.kDOUBLE => a.double_data = b.double_data
  | ScalarFieldType.kSTRING => a.string_data = b.string_data

/-- Logical equality of two scalar values: same type, and fields pairwise
logically equal at that type. -/
def ScalarValueEquiv (a b : ScalarValue) : Prop :=
  a.type = b.type ∧ List.Forall₂ (ScalarFieldEquiv a.type) a.fields b.fields

/-- Vector index kind (`sdk::VectorIndexType`). -/
inductive VectorIndexType where
  | kNoneIndexType
  | kFlat
  | kIvfFlat
  | kIvfPq
  | kHnsw
  | kDiskAnn
  | kBruteForce
  | kBinaryFlat
  | kBinaryIvfFlat
deriving DecidableEq, Repr

/-- Extra search parameter key (`sdk::SearchExtraParamType`). -/
inductive SearchExtraParamType where
  | kParallelOnQueries
  | kNprobe
  | kRecallNum
  | kEfSearch
deriving DecidableEq, Repr

/-- Filter source (`sdk::FilterSource`). -/
inductive FilterSource where
  | kNoneFilterSource
  | kScalarFilter
  | kTableFilter
  | kVectorIdFilter
deriving DecidableEq, Repr

/-- Filter type (`sdk::FilterType`). -/
inductive FilterType where
  | kNoneFilterType
  | kQueryPre
  | kQueryPost
deriving DecidableEq, Repr

/-- Client-side search configuration (`sdk::SearchParam`).  `extra_params`
models the `std::map<SearchExtraParamType, int32_t>`: an association list
whose first match is the map entry. -/
structure SearchParam where
  topk : Nat := 0
  with_vector_data : Bool := true
  with_scalar_data : Bool := false
  selected_keys : List String := []
  with_table_data : Bool := false
  enable_range_search : Bool := false
  filter_source : FilterSource := FilterSource.kNoneFilterSource
  filter_type : FilterType := FilterType.kNoneFilterType
  vector_ids : List Int := []
  is_negation : Bool := false
  is_sorted : Bool := false
  use_brute_force : Bool := false
  beamwidth : Nat := 0
  extra_params : List (SearchExtraParamType × Int) := []
deriving DecidableEq, Repr

/-- `extra_params.find(k)` on the association-list map model. -/
def findExtra (ps : List (SearchExtraParamType × Int)) (k : SearchExtraParamType) : Option Int :=
  match ps with
  | [] => none
  | (k', v) :: rest => if k' = k then some v else findExtra rest k

/-- Wire sub-message `pb::common::SearchFlatParam`. -/
structure SearchFlatParamPB where
  parallel_on_queries : Int := 0
deriving DecidableEq, Repr

/-- Wire sub-message `pb::common::SearchIvfFlatParam`. -/
structure SearchIvfFlatParamPB where
  nprobe : Int := 0
  parallel_on_queries : Int := 0
deriving DecidableEq, Repr

/-- Wire sub-message `pb::common::SearchIvfPqParam`. -/
structure SearchIvfPqParamPB where
  nprobe : Int := 0
  parallel_on_queries : Int := 0
  recall_num : Int := 0
deriving DecidableEq, Repr

/-- Wire sub-message `pb::common::SearchHNSWParam`. -/
structure SearchHNSWParamPB where
  efsearch : Int := 0
deriving DecidableEq, Repr

/-- Wire sub-message `pb::common::SearchDiskAnnParam`. -/
structure SearchDiskAnnParamPB where
  beamwidth : Nat := 0
deriving DecidableEq, Repr

/-- Wire sub-message `pb::common::SearchBinaryFlatParam`. -/
structure SearchBinaryFlatParamPB where
  parallel_on_queries : Int := 0
deriving DecidableEq, Repr

/-- Wire sub-message `pb::common::SearchBinaryIvfFlatParam`. -/
structure SearchBinaryIvfFlatParamPB where
  nprobe : Int := 0
  parallel_on_queries : Int := 0
deriving DecidableEq, Repr

/-- Wire enum `pb::common::VectorFilter`. -/
inductive VectorFilterPB where
  | SCALAR_FILTER
  | TABLE_FILTER
  | VECTOR_ID_FILTER
deriving DecidableEq, Repr

/-- Wire enum `pb::common::VectorFilterType`. -/
inductive VectorFilterTypePB where
  | QUERY_PRE
  | QUERY_POST
deriving DecidableEq, Repr

/-- Wire message `pb::common::VectorSearchParameter`.  Sub-messages and the
filter enums have explicit presence (`mutable_x` / `set_x` creates them);
`none` is "unset". -/
structure VectorSearchParameterPB where
  top_n : Nat := 0
  without_vector_data : Bool := false
  without_scalar_data : Bool := false
  selected_keys : List String := []
  without_table_data : Bool := false
  enable_range_search : Bool := false
  flat : Option SearchFlatParamPB := none
  ivf_flat : Option SearchIvfFlatParamPB := none
  ivf_pq : Option SearchIvfPqParamPB := none
  hnsw : Option SearchHNSWParamPB := none
  diskann : Option SearchDiskAnnParamPB := none
  binary_flat : Option SearchBinaryFlatParamPB := none
  binary_ivf_flat : Option SearchBinaryIvfFlatParamPB := none
  vector_filter : Option VectorFilterPB := none
  vector_filter_type : Option VectorFilterTypePB := none
  vector_ids : List Int := []
  is_negation : Bool := false
  is_sorted : Bool := false
  use_brute_force : Bool := false
deriving DecidableEq, Repr

/-- `FillSearchFlatParamPB` (vector_common.h:384): set `parallel_on_queries`
only when the extra key is present; otherwise the proto default 0 remains. -/
def FillSearchFlatParamPB (p : SearchParam) : SearchFlatParamPB :=
  { parallel_on_queries := (findExtra p.extra_params SearchExtraParamType.kParallelOnQueries).getD 0 }

/-- `FillSearchIvfFlatParamPB` (vector_common.h:390). -/
def FillSearchIvfFlatParamPB (p : SearchParam) : SearchIvfFlatParamPB :=
  { nprobe := (findExtra p.extra_params SearchExtraParamType.kNprobe).getD 0
    parallel_on_queries := (findExtra p.extra_params SearchExtraParamType.kParallelOnQueries).getD 0 }

/-- `FillSearchIvfPqParamPB` (vector_common.h:399). -/
def FillSearchIvfPqParamPB (p : SearchParam) : SearchIvfPqParamPB :=
  { nprobe := (findExtra p.extra_params SearchExtraParamType.kNprobe).getD 0
    parallel_on_queries := (findExtra p.extra_params SearchExtraParamType.kParallelOnQueries).getD 0
    recall_num := (findExtra p.extra_params SearchExtraParamType.kRecallNum).getD 0 }

/-- `FillSearchHnswParamPB` (vector_common.h:411). -/
def FillSearchHnswParamPB (p : SearchParam) : SearchHNSWParamPB :=
  { efsearch := (findExtra p.extra_params SearchExtraParamType.kEfSearch).getD 0 }

/-- `FillSearchDiskAnnParamPB` (vector_common.h:417): `beamwidth` is set
unconditionally from the dedicated `SearchParam` field. -/
def FillSearchDiskAnnParamPB (p : SearchParam) : SearchDiskAnnParamPB :=
  { beamwidth := p.beamwidth }

/-- `FillSearchBinaryFlatParamPB` (vector_common.h:421). -/
def FillSearchBinaryFlatParamPB (p : SearchParam) : SearchBinaryFlatParamPB :=
  { parallel_on_queries := (findExtra p.extra_params SearchExtraParamType.kParallelOnQueries).getD 0 }

/-- `FillSearchBinaryIvfFlatParamPB` (vector_common.h:427). -/
def FillSearchBinaryIvfFlatParamPB (p : SearchParam) : SearchBinaryIvfFlatParamPB :=
  { nprobe := (findExtra p.extra_params SearchExtraParamType.kNprobe).getD 0
    parallel_on_queries := (findExtra p.extra_params SearchExtraParamType.kParallelOnQueries).getD 0 }

/-- Filter-source switch of `FillInternalSearchParams` (vector_common.h:478):
`kNoneFilterSource` leaves `vector_filter` unset. -/
def filterSource2PB : FilterSource → Option VectorFilterPB
  | FilterSource.kNoneFilterSource => none
  | FilterSource.kScalarFilter => some VectorFilterPB.SCALAR_FILTER
  | FilterSource.kTableFilter => some VectorFilterPB.TABLE_FILTER
  | FilterSource.kVectorIdFilter => some VectorFilterPB.VECTOR_ID_FILTER

/-- Filter-type switch of `FillInternalSearchParams` (vector_common.h:495):
`kNoneFilterType` leaves `vector_filter_type` unset. -/
def filterType2PB : FilterType → Option VectorFilterTypePB
  | FilterType.kNoneFilterType => none
  | FilterType.kQueryPre => some VectorFilterTypePB.QUERY_PRE
  | FilterType.kQueryPost => some VectorFilterTypePB.QUERY_POST

/-- `FillInternalSearchParams` (vector_common.h:436).  The result is `none`
for `kNoneIndexType`, whose C++ branch is a `CHECK(false)` abort. -/
def FillInternalSearchParams (type : VectorIndexType) (p : SearchParam) :
    Option VectorSearchParameterPB :=
  let base : VectorSearchParameterPB :=
    { top_n := p.topk
      without_vector_data := !p.with_vector_data
      without_scalar_data := !p.with_scalar_data
      selected_keys := if p.with_scalar_data then p.selected_keys else []
      without_table_data := !p.with_table_data
      enable_range_search := p.enable_range_search
      vector_filter := filterSource2PB p.filter_source
      vector_filter_type := filterType2PB p.filter_type
      vector_ids := p.vector_ids
      is_negation := p.is_negation
      is_sorted := p.is_sorted
      use_brute_force := p.use_brute_force }
  match type with
  | VectorIndexType.kNoneIndexType => none
  | VectorIndexType.kFlat => some { base with flat := some (FillSearchFlatParamPB p) }
  | VectorIndexType.kBruteForce => some base
  | VectorIndexType.kIvfFlat => some { base with ivf_flat := some (FillSearchIvfFlatParamPB p) }
  | VectorIndexType.kIvfPq => some { base with ivf_pq := some (FillSearchIvfPqParamPB p) }
  | VectorIndexType.kHnsw => some { base with hnsw := some (FillSearchHnswParamPB p) }
  | VectorIndexType.kDiskAnn => some { base with diskann := some (FillSearchDiskAnnParamPB p) }
  | VectorIndexType.kBinaryFlat => some { base with binary_flat := some (FillSearchBinaryFlatParamPB p) }
  | VectorIndexType.kBinaryIvfFlat => some { base with binary_ivf_flat := some (FillSearchBinaryIvfFlatParamPB p) }

/-- Extra-parameter keys an index kind recognizes (spec section 6.2 table). -/
def recognizedExtraKeys : VectorIndexType → List SearchExtraParamType
  | VectorIndexType.kNoneIndexType => []
  | VectorIndexType.kFlat => [SearchExtraParamType.kParallelOnQueries]
  | VectorIndexType.kBinaryFlat => [SearchExtraParamType.kParallelOnQueries]
  | VectorIndexType.kIvfFlat => [SearchExtraParamType.kNprobe, SearchExtraParamType.kParallelOnQueries]
  | VectorIndexType.kBinaryIvfFlat => [SearchExtraParamType.kNprobe, SearchExtraParamType.kParallelOnQueries]
  | VectorIndexType.kIvfPq =>
      [SearchExtraParamType.kNprobe, SearchExtraParamType.kParallelOnQueries, SearchExtraParamType.kRecallNum]
  | VectorIndexType.kHnsw => [SearchExtraParamType.kEfSearch]
  | VectorIndexType.kDiskAnn => []
  | VectorIndexType.kBruteForce => []

/-- Spec-side description of which per-index wire sub-message the built
parameter must carry: exactly the sub-message of the index kind, populated
from the kind's recognized keys, all other sub-messages unset. -/
def subMessagesSpec (type : VectorIndexType) (p : SearchParam) (res : VectorSearchParameterPB) : Prop :=
  match type with
  | VectorIndexType.kNoneIndexType => False
  | VectorIndexType.kFlat =>
      res.flat = some (FillSearchFlatParamPB p) ∧ res.ivf_flat = none ∧ res.ivf_pq = none ∧
      res.hnsw = none ∧ res.diskann = none ∧ res.binary_flat = none ∧ res.binary_ivf_flat = none
  | VectorIndexType.kBruteForce =>
      res.flat = none ∧ res.ivf_flat = none ∧ res.ivf_pq = none ∧
      res.hnsw = none ∧ res.diskann = none ∧ res.binary_flat = none ∧ res.binary_ivf_flat = none
  | VectorIndexType.kIvfFlat =>
      res.flat = none ∧ res.ivf_flat = some (FillSearchIvfFlatParamPB p) ∧ res.ivf_pq = none ∧
      res.hnsw = none ∧ res.diskann = none ∧ res.binary_flat = none ∧ res.binary_ivf_flat = none
  | VectorIndexType.kIvfPq =>
      res.flat = none ∧ res.ivf_flat = none ∧ res.ivf_pq = some (FillSearchIvfPqParamPB p) ∧
      res.hnsw = none ∧ res.diskann = none ∧ res.binary_flat = none ∧ res.binary_ivf_flat = none
  | VectorIndexType.kHnsw =>
      res.flat = none ∧ res.ivf_flat = none ∧ res.ivf_pq = none ∧
      res.hnsw = some (FillSearchHnswParamPB p) ∧ res.diskann = none ∧ res.binary_flat = none ∧
      res.binary_ivf_flat = none
  | VectorIndexType.kDiskAnn =>
      res.flat = none ∧ res.ivf_flat = none ∧ res.ivf_pq = none ∧
      res.hnsw = none ∧ res.diskann = some (FillSearchDiskAnnParamPB p) ∧ res.binary_flat = none ∧
      res.binary_ivf_flat = none
  | VectorIndexType.kBinaryFlat =>
      res.flat = none ∧ res.ivf_flat = none ∧ res.ivf_pq = none ∧
      res.hnsw = none ∧ res.diskann = none ∧ res.binary_flat = some (FillSearchBinaryFlatParamPB p) ∧
      res.binary_ivf_flat = none
  | VectorIndexType.kBinaryIvfFlat =>
      res.flat = none ∧ res.ivf_flat = none ∧ res.ivf_pq = none ∧
      res.hnsw = none ∧ res.diskann = none ∧ res.binary_flat = none ∧
      res.binary_ivf_flat = some (FillSearchBinaryIvfFlatParamPB p)

/-- Spec-side description (section 6.2 wire mapping) of the whole built
search parameter, including silent discarding of unrecognized extra keys. -/
def fillParamsSpec (type : VectorIndexType) (p : SearchParam) (res : VectorSearchParameterPB) : Prop :=
  res.top_n = p.topk ∧
  res.without_vector_data = !p.with_vector_data ∧
  res.without_scalar_data = !p.with_scalar_data ∧
  res.without_table_data = !p.with_table_data ∧
  res.enable_range_search = p.enable_range_search ∧
  res.selected_keys = (if p.with_scalar_data then p.selected_keys else []) ∧
  res.vector_filter = filterSource2PB p.filter_source ∧
  res.vector_filter_type = filterType2PB p.filter_type ∧
  res.vector_ids = p.vector_ids ∧
  res.is_negation = p.is_negation ∧
  res.is_sorted = p.is_sorted ∧
  res.use_brute_force = p.use_brute_force ∧
  subMessagesSpec type p res ∧
  (∀ k v, k ∉ recognizedExtraKeys type →
    FillInternalSearchParams type { p with extra_params := (k, v) :: p.extra_params } = some res)

/-- Ascending comparison on candidate distances: the comparator
`a.distance < b.distance` of `ConstructResultUnlocked`
(vector_search_task.cc:159) induces sortedness by `≤` on distances. -/
def distLE (a b : VectorWithDistance) : Bool := a.distance ≤ b.distance

/-- The `std::sort` of `ConstructResultUnlocked` (vector_search_task.cc:158):
a distance-sorted permutation of the input.  `std::sort` leaves the order of
ties unspecified; the model fixes them stably via merge sort. -/
def sortByDistance (l : List VectorWithDistance) : List VectorWithDistance :=
  l.mergeSort distLE

/-- Per-query finalization of `ConstructResultUnlocked`
(vector_search_task.cc:157-171): sort the accumulated candidates ascending
by distance, then `resize(topk)` only when range search is off, `topk > 0`
and `topk` is smaller than the candidate count. -/
def finishQuery (topk : Nat) (enable_range_search : Bool) (l : List VectorWithDistance) :
    List VectorWithDistance :=
  let s := sortByDistance l
  if enable_range_search = false ∧ 0 < topk ∧ topk < s.length then s.take topk else s

/-- Spec-side merge policy, following the claim's words: the concatenated
candidates sorted ascending by distance, truncated to the first
`min(topk, |C|)` entries when `enable_range_search` is false and `topk > 0`,
kept in full otherwise. -/
def finishQuerySpec (topk : Nat) (enable_range_search : Bool) (l : List VectorWithDistance) :
    List VectorWithDistance :=
  let s := sortByDistance l
  if enable_range_search = true then s
  else if 0 < topk then s.take (min topk s.length) else s

/-- Insertion into the per-region id-group map
(`region_vectors_to_ids[tmp->RegionId()].push_back(id)`,
vector_upsert_task.cc:93 / document_batch_query_task.cc:78), modelled on an
association list in first-insertion order. -/
def insertGroup (groups : List (Int × List Int)) (k v : Int) : List (Int × List Int) :=
  match groups with
  | [] => [(k, [v])]
  | (k', vs) :: rest => if k' = k then (k', vs ++ [v]) :: rest else (k', vs) :: insertGroup rest k v

/-- The fanout planner of `VectorUpsertTask::DoAsync` /
`DocumentBatchQueryTask::DoAsync`: group the pending ids by the owning
region returned by `LookupRegionByKey`.  `lookup` is the successful
key-to-region-id resolution (the claim assumes all lookups succeed; a
failed lookup aborts the whole task before any group is built). -/
def planGroups (lookup : Int → Int) (ids : List Int) : List (Int × List Int) :=
  ids.foldl (fun acc id => insertGroup acc (lookup id) id) []

/-- First-error latching step shared by every RPC / sub-task callback
(`if (status_.ok()) status_ = status;`, vector_search_task.cc:106,
vector_upsert_task.cc:140, document_batch_query_task.cc:133).  An OK
incoming status leaves the latched status untouched. -/
def latchStatus (st incoming : Option Nat) : Option Nat :=
  match incoming with
  | none => st
  | some e => if st = none then some e else st

/-- Task status after a sequence of callback outcomes, in arrival order. -/
def statusAfter (outcomes : List (Option Nat)) : Option Nat :=
  outcomes.foldl latchStatus none

/-- Model constant standing for the error code
`pb::error::Errno::EDISKANN_IS_NO_DATA` tested at
vector_search_task.cc:242; its concrete numeric value is immaterial. -/
def EDISKANN_IS_NO_DATA : Nat := 30161

/-- Outcome of one per-region vector-search RPC as delivered to its
callback: success with the per-query `batch_results` (already decoded to
`VectorWithDistance` lists), or a failure with an error code. -/
inductive SearchRpcOutcome where
  | ok (batch_results : List (List VectorWithDistance))
  | fail (e : Nat)
deriving DecidableEq, Repr

/-- Whether an RPC outcome is a success. -/
def SearchRpcOutcome.isOk : SearchRpcOutcome → Bool
  | SearchRpcOutcome.ok _ => true
  | SearchRpcOutcome.fail _ => false

/-- Whether an RPC outcome is the special `EDISKANN_IS_NO_DATA` failure. -/
def SearchRpcOutcome.isNoData : SearchRpcOutcome → Bool
  | SearchRpcOutcome.ok _ => false
  | SearchRpcOutcome.fail e => decide (e = EDISKANN_IS_NO_DATA)

/-- Mutable state of a `VectorSearchPartTask` touched by its RPC callbacks:
the latched status, the queued nodata region ids, and the per-query-index
result accumulator `search_result_`
(an `unordered_map<int64_t, vector<VectorWithDistance>>`, modelled as a
total function defaulting to the empty list). -/
structure PartTaskState where
  status : Option Nat
  nodata_region_ids : List Int
  search_result : Nat → List VectorWithDistance

/-- Merging one response into `search_result_`
(vector_search_task.cc:262-267 and 344-349): for each batch index `q`
present in the response, append that batch's candidates to the entry of
`q`. -/
def mergeBatchResults (acc : Nat → List VectorWithDistance)
    (batches : List (List VectorWithDistance)) : Nat → List VectorWithDistance :=
  fun q => acc q ++ batches.getD q []

/-- `VectorSearchPartTask::VectorSearchRpcCallback`
(vector_search_task.cc:237): a nodata failure queues the region id (and is
not latched); any other failure is latched first-error; a success merges the
response (a batch-count mismatch with the request is only logged there). -/
def VectorSearchRpcCallback (st : PartTaskState) (region_id : Int)
    (o : SearchRpcOutcome) : PartTaskState :=
  match o with
  | SearchRpcOutcome.ok batches =>
      { st with search_result := mergeBatchResults st.search_result batches }
  | SearchRpcOutcome.fail e =>
      if e = EDISKANN_IS_NO_DATA then
        { st with nodata_region_ids := st.nodata_region_ids ++ [region_id] }
      else
        { st with status := latchStatus st.status (some e) }

/-- `VectorSearchPartTask::NodataRegionRpcCallback`
(vector_search_task.cc:324): every failure is latched first-error here, a
success merges the response into the same accumulator. -/
def NodataRegionRpcCallback (st : PartTaskState) (o : SearchRpcOutcome) : PartTaskState :=
  match o with
  | SearchRpcOutcome.ok batches =>
      { st with search_result := mergeBatchResults st.search_result batches }
  | SearchRpcOutcome.fail e => { st with status := latchStatus st.status (some e) }

/-- Part-task state at `DoAsync` time (vector_search_task.cc:192-201):
status OK, cleared accumulator and nodata queue. -/
def initialPartState : PartTaskState :=
  { status := none, nodata_region_ids := [], search_result := fun _ => [] }

/-- The primary fan-in: all per-region primary callbacks applied in arrival
order. -/
def runPrimaryPhase (primary : List (Int × SearchRpcOutcome)) : PartTaskState :=
  primary.foldl (fun st o => VectorSearchRpcCallback st o.1 o.2) initialPartState

/-- The brute-force parameter built by `SearchByBruteForce`
(vector_search_task.cc:294-296): the cloned search parameter with the
DiskANN sub-message cleared and `use_brute_force` set. -/
def bruteForceParameter (p : VectorSearchParameterPB) : VectorSearchParameterPB :=
  { p with diskann := none, use_brute_force := true }

/-- The fallback RPCs issued by `CheckNoDataRegion` / `SearchByBruteForce`
(vector_search_task.cc:276-322): none when the latched status is non-OK or
no nodata region was queued; otherwise one RPC per queued nodata region,
all carrying the brute-force parameter. -/
def bruteForceRpcs (p : VectorSearchParameterPB) (st : PartTaskState) :
    List (Int × VectorSearchParameterPB) :=
  if st.status = none ∧ st.nodata_region_ids ≠ [] then
    st.nodata_region_ids.map (fun rid => (rid, bruteForceParameter p))
  else []

/-- Whole part-task execution: primary fan-in, then - exactly when
`CheckNoDataRegion` chooses the fallback - the fallback callbacks in
arrival order on the same state. -/
def runPartTask (primary : List (Int × SearchRpcOutcome))
    (fallback : List SearchRpcOutcome) : PartTaskState :=
  let st := runPrimaryPhase primary
  if st.status = none ∧ st.nodata_region_ids ≠ [] then
    fallback.foldl NodataRegionRpcCallback st
  else st

/-- Validation error reported by `Init` (`Status::InvalidArgument`),
distinguished by its trigger. -/
inductive InitError where
  | emptyInput
  | nonPositiveId
  | duplicateId
deriving DecidableEq, Repr

/-- First validation loop of `VectorUpsertTask::Init`
(vector_upsert_task.cc:41-46): reject the first non-positive id. -/
def checkPositiveIds : List Int → Except InitError Unit
  | [] => Except.ok ()
  | id :: rest =>
      if id ≤ 0 then Except.error InitError.nonPositiveId else checkPositiveIds rest

/-- Second validation loop of `VectorUpsertTask::Init`
(vector_upsert_task.cc:51-56): build `vector_id_to_idx_`, rejecting the
first id whose map insertion fails. -/
def insertIds (seen : List Int) : List Int → Except InitError Unit
  | [] => Except.ok ()
  | id :: rest =>
      if id ∈ seen then Except.error InitError.duplicateId else insertIds (id :: seen) rest

/-- `VectorUpsertTask::Init` (vector_upsert_task.cc:31), restricted to its
id validation (the index-cache resolution is an external collaborator
assumed successful): empty input, then non-positive ids, then duplicates. -/
def VectorUpsertTaskInit (ids : List Int) : Except InitError Unit :=
  if ids.isEmpty then Except.error InitError.emptyInput
  else
    match checkPositiveIds ids with
    | Except.error e => Except.error e
    | Except.ok _ => insertIds [] ids

/-- Single validation loop of `DocumentBatchQueryTask::Init`
(document_batch_query_task.cc:28-36): per id, reject non-positive first,
then a failed `doc_ids_` set insertion.  An empty id list leaves the loop
body unexecuted. -/
def docIdsCheck (seen : List Int) : List Int → Except InitError Unit
  | [] => Except.ok ()
  | id :: rest =>
      if id ≤ 0 then Except.error InitError.nonPositiveId
      else if id ∈ seen then Except.error InitError.duplicateId
      else docIdsCheck (id :: seen) rest

/-- `DocumentBatchQueryTask::Init` (document_batch_query_task.cc:25),
restricted to its id validation. -/
def DocumentBatchQueryTaskInit (ids : List Int) : Except InitError Unit :=
  docIdsCheck [] ids

/-- A document with its id (`sdk::DocWithId`): only the id participates in
the verified callback logic (the payload travels opaquely through the
external `DocumentTranslater`). -/
structure DocWithId where
  id : Int
deriving DecidableEq, Repr

/-- Outcome of one per-region document batch-query RPC. -/
inductive DocRpcOutcome where
  | ok (documents : List DocWithId)
  | fail (e : Nat)
deriving DecidableEq, Repr

/-- `DocumentBatchQueryTask::DocumentBatchQueryRpcCallback`
(document_batch_query_task.cc:124) acting on
(status, accumulated docs, pending doc id set): a failure latches
first-error; a success first passes the fatal
`CHECK_EQ(doucments_size, document_ids_size)` (modelled by `none` = process
abort), then appends the documents with positive id and erases the
requested ids from the pending set. -/
def DocumentBatchQueryRpcCallback (st : Option Nat × List DocWithId × List Int)
    (reqIds : List Int) (o : DocRpcOutcome) :
    Option (Option Nat × List DocWithId × List Int) :=
  match o with
  | DocRpcOutcome.fail e => some (latchStatus st.1 (some e), st.2.1, st.2.2)
  | DocRpcOutcome.ok docs =>
      if docs.length = reqIds.length then
        some (st.1, st.2.1 ++ docs.filter (fun d => decide (0 < d.id)),
          st.2.2.filter (fun id => decide (id ∉ reqIds)))
      else none

/-- Whole batch-query fan-in from the state right after `DoAsync`: the
callbacks applied in arrival order; `none` models a `CHECK_EQ` abort. -/
def runDocumentBatchQueryTask (pending0 : List Int)
    (outcomes : List (List Int × DocRpcOutcome)) :
    Option (Option Nat × List DocWithId × List Int) :=
  outcomes.foldl
    (fun acc o => acc.bind (fun st => DocumentBatchQueryRpcCallback st o.1 o.2))
    (some (none, [], pending0))

/-- Whether a batch-query outcome passes the callback's size check. -/
def docSizeOk (o : List Int × DocRpcOutcome) : Bool :=
  match o.2 with
  | DocRpcOutcome.ok docs => decide (docs.length = o.1.length)
  | DocRpcOutcome.fail _ => true

/-- The status an outcome delivers to the latching rule. -/
def docOutcomeStatus (o : List Int × DocRpcOutcome) : Option Nat :=
  match o.2 with
  | DocRpcOutcome.ok _ => none
  | DocRpcOutcome.fail e => some e

/-- The documents with positive id delivered by the successful RPCs, in
arrival order - the batch-query accumulator contents at fan-in. -/
def survivingDocs (outcomes : List (List Int × DocRpcOutcome)) : List DocWithId :=
  (outcomes.map (fun o =>
    match o.2 with
    | DocRpcOutcome.ok docs => docs.filter (fun d => decide (0 < d.id))
    | DocRpcOutcome.fail _ => [])).join

/-- Outcome of one `VectorSearchPartTask` as delivered to
`VectorSearchTask::SubTaskCallback`: the sub-task's per-query result map
(total function defaulting to `[]`), or a failure. -/
inductive SubTaskOutcome where
  | ok (result : Nat → List VectorWithDistance)
  | fail (e : Nat)

/-- `VectorSearchTask::SubTaskCallback` (vector_search_task.cc:99) acting on
(status, merged per-query accumulator `tmp_out_result_`): a failure latches
first-error, a success merges the sub-task's map by per-key append. -/
def SubTaskCallback (st : Option Nat × (Nat → List VectorWithDistance))
    (o : SubTaskOutcome) : Option Nat × (Nat → List VectorWithDistance) :=
  match o with
  | SubTaskOutcome.fail e => (latchStatus st.1 (some e), st.2)
  | SubTaskOutcome.ok res => (st.1, fun q => st.2 q ++ res q)

/-- The status a sub-task outcome delivers to the latching rule. -/
def subOutcomeStatus (o : SubTaskOutcome) : Option Nat :=
  match o with
  | SubTaskOutcome.ok _ => none
  | SubTaskOutcome.fail e => some e

/-- Per-query concatenation of the successful sub-tasks' results, in
arrival order. -/
def mergedSubResults (outs : List SubTaskOutcome) (q : Nat) : List VectorWithDistance :=
  (outs.map (fun o =>
    match o with
    | SubTaskOutcome.ok res => res q
    | SubTaskOutcome.fail _ => [])).join

/-- Whole search-top-task fan-in (vector_search_task.cc:99-172) over `Q`
query vectors: fold the sub-task callbacks, then - regardless of the latched
status - `ConstructResultUnlocked` builds one sorted, truncated result list
per query index and the task completes with the latched status. -/
def VectorSearchTaskRun (topk : Nat) (ers : Bool) (Q : Nat)
    (outs : List SubTaskOutcome) : Option Nat × List (List VectorWithDistance) :=
  let st := outs.foldl SubTaskCallback (none, fun _ => [])
  (st.1, (List.range Q).map (fun q => finishQuery topk ers (st.2 q)))

/-- Result of a task's `DoAsync` planning step: completed immediately with
a status (no RPC scheduled), or a set of scheduled RPCs. -/
inductive DoAsyncOutcome (α : Type) where
  | immediate (status : Option Nat)
  | scheduled (rpcs : List α)

/-- `VectorUpsertTask::DoAsync` planning (vector_upsert_task.cc:61-131):
empty pending set completes immediately OK; otherwise one RPC per region
group. -/
def VectorUpsertTaskDoAsync (lookup : Int → Int) (pending : List Int) :
    DoAsyncOutcome (Int × List Int) :=
  if pending.isEmpty then DoAsyncOutcome.immediate none
  else DoAsyncOutcome.scheduled (planGroups lookup pending)

/-- `DocumentBatchQueryTask::DoAsync` planning
(document_batch_query_task.cc:46-121): same shape as the upsert planner. -/
def DocumentBatchQueryTaskDoAsync (lookup : Int → Int) (pending : List Int) :
    DoAsyncOutcome (Int × List Int) :=
  if pending.isEmpty then DoAsyncOutcome.immediate none
  else DoAsyncOutcome.scheduled (planGroups lookup pending)

/-- `VectorSearchTask::DoAsync` planning (vector_search_task.cc:78-97):
empty pending partition set completes immediately OK; otherwise one
sub-task per partition id. -/
def VectorSearchTaskDoAsync (next_part_ids : List Int) : DoAsyncOutcome Int :=
  if next_part_ids.isEmpty then DoAsyncOutcome.immediate none
  else DoAsyncOutcome.scheduled next_part_ids

/-- Concrete candidate used by witness scenarios. -/
def sampleCand (d : Int) : VectorWithDistance :=
  { vector_data :=
      { id := 0
        vector :=
          { dimension := 0
            value_type := ValueType.kFloat
            float_values := []
            binary_values := [] }
        scalar_data := [] }
    distance := d
    metric_type := MetricType.kL2 }

/-- Witness scenario for the fallback claim: regions 10 and 12 answer, the
region 11 primary RPC reports nodata. -/
def samplePrimary : List (Int × SearchRpcOutcome) :=
  [(10, SearchRpcOutcome.ok [[sampleCand 1]]),
   (11, SearchRpcOutcome.fail EDISKANN_IS_NO_DATA),
   (12, SearchRpcOutcome.ok [[sampleCand 3]])]

/-- Witness scenario continued: the single brute-force retry succeeds. -/
def sampleFallback : List SearchRpcOutcome :=
  [SearchRpcOutcome.ok [[sampleCand 2]]]

/-- Witness search parameter carrying a DiskANN sub-message. -/
def sampleParameter : VectorSearchParameterPB :=
  { top_n := 3, diskann := some { beamwidth := 2 } }

end Definitions

section Theorems

theorem forall2_map_self {α β : Type} (f : α → β) (R : β → α → Prop)
    (l : List α) (h : ∀ a ∈ l, R (f a) a) : List.Forall₂ R (l.map f) l := by
  induction l with
  | nil => simp
  | cons x xs ih =>
      simp only [List.map_cons]
      exact List.Forall₂.cons (h x (by simp)) (ih (fun a ha => h a (by simp [ha])))

theorem decode_encode_valueType (vt : ValueType) :
    decodeValueTypePB (ValueType2InternalValueTypePB vt) = vt := by
  cases vt <;> rfl

theorem decode_encode_scalarField (t : ScalarFieldType) (f : ScalarField) :
    ScalarFieldEquiv t (decodeScalarField t (encodeScalarField t f)) f := by
  cases t <;> simp [decodeScalarField, encodeScalarField, ScalarFieldEquiv]

theorem scalarValue_roundtrip (sv : ScalarValue) :
    ScalarValueEquiv (InternalScalarValuePB2ScalarValue (ScalarValue2InternalScalarValuePB sv)) sv := by
  refine ⟨rfl, ?_⟩
  simp only [InternalScalarValuePB2ScalarValue, ScalarValue2InternalScalarValuePB, List.map_map]
  exact forall2_map_self _ _ _ (fun f _ => decode_encode_scalarField sv.type f)

/-- Claim C9: for every `VectorWithId` (the model's `value_type` enum has
exactly the supported values), encoding with `FillVectorWithIdPB` including
the id and decoding with `InternalVectorIdPB2VectorWithId` yields the same
logical value: same id, dimension, value type, float values, binary values,
and pairwise logically-equal scalar-data key-value pairs. -/
theorem C9_vector_with_id_roundtrip (v : VectorWithId) :
    (InternalVectorIdPB2VectorWithId (FillVectorWithIdPB v true)).id = v.id ∧
    (InternalVectorIdPB2VectorWithId (FillVectorWithIdPB v true)).vector.dimension = v.vector.dimension ∧
    (InternalVectorIdPB2VectorWithId (FillVectorWithIdPB v true)).vector.value_type = v.vector.value_type ∧
    (InternalVectorIdPB2VectorWithId (FillVectorWithIdPB v true)).vector.float_values = v.vector.float_values ∧
    (InternalVectorIdPB2VectorWithId (FillVectorWithIdPB v true)).vector.binary_values = v.vector.binary_values ∧
    List.Forall₂ (fun a b => a.1 = b.1 ∧ ScalarValueEquiv a.2 b.2)
      (InternalVectorIdPB2VectorWithId (FillVectorWithIdPB v true)).scalar_data v.scalar_data := by
  refine ⟨rfl, rfl, decode_encode_valueType _, rfl, ?_, ?_⟩
  · simp only [InternalVectorIdPB2VectorWithId, FillVectorWithIdPB, List.map_map]
    have h : ∀ l : List Nat, List.map ((fun s : List Nat => s.getD 0 0) ∘ fun b => [b]) l = l := by
      intro l
      induction l with
      | nil => rfl
      | cons x xs ih =>
          simp only [List.map_cons, Function.comp_apply, ih]
          rfl
    exact h _
  · simp only [InternalVectorIdPB2VectorWithId, FillVectorWithIdPB, List.map_map]
    exact forall2_map_self _ _ _ (fun kv _ => ⟨rfl, scalarValue_roundtrip kv.2⟩)

theorem findExtra_cons_ne (ps : List (SearchExtraParamType × Int)) (k k' : SearchExtraParamType)
    (v : Int) (h : k ≠ k') : findExtra ((k, v) :: ps) k' = findExtra ps k' := by
  simp [findExtra, h]

/-- Claim C8: for every `SearchParam` and supported index kind,
`FillInternalSearchParams` succeeds and builds the wire parameter described
by `fillParamsSpec`: the documented common fields, exactly the per-index
sub-message of the kind, and silent discarding of extra keys the kind does
not recognize. -/
theorem C8_fill_internal_search_params (type : VectorIndexType) (p : SearchParam)
    (h : type ≠ VectorIndexType.kNoneIndexType) :
    ∃ res, FillInternalSearchParams type p = some res ∧ fillParamsSpec type p res := by
  cases type with
  | kNoneIndexType => exact absurd rfl h
  | kFlat =>
      refine ⟨_, rfl, rfl, rfl, rfl, rfl, rfl, rfl, rfl, rfl, rfl, rfl, rfl, rfl,
        ⟨rfl, rfl, rfl, rfl, rfl, rfl, rfl⟩, ?_⟩
      intro k v hk
      simp only [recognizedExtraKeys, List.mem_singleton] at hk
      simp [FillInternalSearchParams, FillSearchFlatParamPB, findExtra_cons_ne _ _ _ _ hk]
  | kBruteForce =>
      refine ⟨_, rfl, rfl, rfl, rfl, rfl, rfl, rfl, rfl, rfl, rfl, rfl, rfl, rfl,
        ⟨rfl, rfl, rfl, rfl, rfl, rfl, rfl⟩, ?_⟩
      intro k v hk
      simp [FillInternalSearchParams]
  | kIvfFlat =>
      refine ⟨_, rfl, rfl, rfl, rfl, rfl, rfl, rfl, rfl, rfl, rfl, rfl, rfl, rfl,
        ⟨rfl, rfl, rfl, rfl, rfl, rfl, rfl⟩, ?_⟩
      intro k v hk
      simp only [recognizedExtraKeys, List.mem_cons, List.mem_singleton, not_or] at hk
      simp [FillInternalSearchParams, FillSearchIvfFlatParamPB,
        findExtra_cons_ne _ _ _ _ hk.1, findExtra_cons_ne _ _ _ _ hk.2.1]
  | kIvfPq =>
      refine ⟨_, rfl, rfl, rfl, rfl, rfl, rfl, rfl, rfl, rfl, rfl, rfl, rfl, rfl,
        ⟨rfl, rfl, rfl, rfl, rfl, rfl, rfl⟩, ?_⟩
      intro k v hk
      simp only [recognizedExtraKeys, List.mem_cons, List.mem_singleton, not_or] at hk
      simp [FillInternalSearchParams, FillSearchIvfPqParamPB,
        findExtra_cons_ne _ _ _ _ hk.1, findExtra_cons_ne _ _ _ _ hk.2.1,
        findExtra_cons_ne _ _ _ _ hk.2.2.1]
  | kHnsw =>
      refine ⟨_, rfl, rfl, rfl, rfl, rfl, rfl, rfl, rfl, rfl, rfl, rfl, rfl, rfl,
        ⟨rfl, rfl, rfl, rfl, rfl, rfl, rfl⟩, ?_⟩
      intro k v hk
      simp only [recognizedExtraKeys, List.mem_singleton] at hk
      simp [FillInternalSearchParams, FillSearchHnswParamPB, findExtra_cons_ne _ _ _ _ hk]
  | kDiskAnn =>
      refine ⟨_, rfl, rfl, rfl, rfl, rfl, rfl, rfl, rfl, rfl, rfl, rfl, rfl, rfl,
        ⟨rfl, rfl, rfl, rfl, rfl, rfl, rfl⟩, ?_⟩
      intro k v hk
      simp [FillInternalSearchParams, FillSearchDiskAnnParamPB]
  | kBinaryFlat =>
      refine ⟨_, rfl, rfl, rfl, rfl, rfl, rfl, rfl, rfl, rfl, rfl, rfl, rfl, rfl,
        ⟨rfl, rfl, rfl, rfl, rfl, rfl, rfl⟩, ?_⟩
      intro k v hk
      simp only [recognizedExtraKeys, List.mem_singleton] at hk
      simp [FillInternalSearchParams, FillSearchBinaryFlatParamPB, findExtra_cons_ne _ _ _ _ hk]
  | kBinaryIvfFlat =>
      refine ⟨_, rfl, rfl, rfl, rfl, rfl, rfl, rfl, rfl, rfl, rfl, rfl, rfl, rfl,
        ⟨rfl, rfl, rfl, rfl, rfl, rfl, rfl⟩, ?_⟩
      intro k v hk
      simp only [recognizedExtraKeys, List.mem_cons, List.mem_singleton, not_or] at hk
      simp [FillInternalSearchParams, FillSearchBinaryIvfFlatParamPB,
        findExtra_cons_ne _ _ _ _ hk.1, findExtra_cons_ne _ _ _ _ hk.2.1]

/-- Witness for C8: the Hnsw kind at a concrete parameter. -/
theorem C8_fill_internal_search_params_witness :
    ∃ res,
      FillInternalSearchParams VectorIndexType.kHnsw
        { topk := 5, with_scalar_data := true, selected_keys := ["a"],
          extra_params := [(SearchExtraParamType.kEfSearch, 37)] } = some res ∧
      fillParamsSpec VectorIndexType.kHnsw
        { topk := 5, with_scalar_data := true, selected_keys := ["a"],
          extra_params := [(SearchExtraParamType.kEfSearch, 37)] } res :=
  C8_fill_internal_search_params VectorIndexType.kHnsw
    { topk := 5, with_scalar_data := true, selected_keys := ["a"],
      extra_params := [(SearchExtraParamType.kEfSearch, 37)] } (by decide)

theorem distLE_trans (a b c : VectorWithDistance) (h1 : distLE a b = true)
    (h2 : distLE b c = true) : distLE a c = true := by
  simp only [distLE, decide_eq_true_eq] at *
  exact le_trans h1 h2

theorem distLE_total (a b : VectorWithDistance) : (distLE a b || distLE b a) = true := by
  simp only [distLE, Bool.or_eq_true, decide_eq_true_eq]
  exact Int.le_total a.distance b.distance

theorem sortByDistance_sorted (l : List VectorWithDistance) :
    (sortByDistance l).Pairwise (fun a b => a.distance ≤ b.distance) := by
  have h := List.sorted_mergeSort
    (fun a b c => distLE_trans a b c) (fun a b => distLE_total a b) l
  exact h.imp (fun hab => by simpa [distLE] using hab)

theorem sortByDistance_perm (l : List VectorWithDistance) : (sortByDistance l).Perm l :=
  List.mergeSort_perm l distLE

theorem finishQuery_eq_spec (topk : Nat) (ers : Bool) (l : List VectorWithDistance) :
    finishQuery topk ers l = finishQuerySpec topk ers l := by
  unfold finishQuery finishQuerySpec
  cases ers with
  | true => simp
  | false =>
      by_cases h1 : 0 < topk
      · by_cases h2 : topk < (sortByDistance l).length
        · simp [h1, h2, min_eq_left (le_of_lt h2)]
        · have hle : (sortByDistance l).length ≤ topk := le_of_not_lt h2
          simp [h1, h2, min_eq_right hle]
      · simp [h1]

/-- Claim C1: per query index, the final result equals the concatenation of
the per-partition candidate lists sorted ascending by distance with the
claimed truncation rule (`finishQuerySpec`), the final result is sorted
ascending by distance, and the sorted list is a permutation of the
concatenated candidates. -/
theorem C1_topk_merge_order (topk : Nat) (ers : Bool) (parts : List (List VectorWithDistance)) :
    finishQuery topk ers parts.join = finishQuerySpec topk ers parts.join ∧
    (finishQuery topk ers parts.join).Pairwise (fun a b => a.distance ≤ b.distance) ∧
    (sortByDistance parts.join).Perm parts.join := by
  refine ⟨finishQuery_eq_spec _ _ _, ?_, sortByDistance_perm _⟩
  unfold finishQuery
  by_cases h : ers = false ∧ 0 < topk ∧ topk < (sortByDistance parts.join).length
  · simp only [h, if_true]
    exact List.Pairwise.sublist (List.take_sublist _ _) (sortByDistance_sorted _)
  · simp only [h, if_false]
    exact sortByDistance_sorted _

theorem insertGroup_cons_pos (rest : List (Int × List Int)) (k' : Int) (vs : List Int)
    (k v : Int) (h : k' = k) :
    insertGroup ((k', vs) :: rest) k v = (k', vs ++ [v]) :: rest := by
  simp [insertGroup, h]

theorem insertGroup_cons_neg (rest : List (Int × List Int)) (k' : Int) (vs : List Int)
    (k v : Int) (h : ¬k' = k) :
    insertGroup ((k', vs) :: rest) k v = (k', vs) :: insertGroup rest k v := by
  simp [insertGroup, h]

theorem join_insertGroup_perm (g : List (Int × List Int)) (k v : Int) :
    ((insertGroup g k v).map Prod.snd).join.Perm ((g.map Prod.snd).join ++ [v]) := by
  induction g with
  | nil => simp [insertGroup]
  | cons e rest ih =>
      obtain ⟨k', vs⟩ := e
      by_cases h : k' = k
      · rw [insertGroup_cons_pos rest k' vs k v h]
        simp only [List.map_cons, List.join_cons, List.append_assoc]
        exact List.Perm.append_left vs (List.perm_append_comm)
      · rw [insertGroup_cons_neg rest k' vs k v h]
        simp only [List.map_cons, List.join_cons, List.append_assoc]
        exact List.Perm.append_left vs ih

theorem planGroups_join_perm_aux (lookup : Int → Int) (ids : List Int) :
    ∀ acc : List (Int × List Int),
      ((ids.foldl (fun acc id => insertGroup acc (lookup id) id) acc).map Prod.snd).join.Perm
        ((acc.map Prod.snd).join ++ ids) := by
  induction ids with
  | nil => intro acc; simp
  | cons i rest ih =>
      intro acc
      simp only [List.foldl_cons]
      refine (ih (insertGroup acc (lookup i) i)).trans ?_
      refine ((join_insertGroup_perm acc (lookup i) i).append_right rest).trans ?_
      simp only [List.append_assoc, List.singleton_append]
      exact List.Perm.refl _

theorem insertGroup_sound (f : Int → Int) (g : List (Int × List Int)) (k v : Int)
    (hg : ∀ e ∈ g, ∀ x ∈ e.2, f x = e.1) (hv : f v = k) :
    ∀ e ∈ insertGroup g k v, ∀ x ∈ e.2, f x = e.1 := by
  induction g with
  | nil =>
      intro e he x hx
      simp only [insertGroup, List.mem_singleton] at he
      subst he
      simp only [List.mem_singleton] at hx
      subst hx
      exact hv
  | cons hd rest ih =>
      obtain ⟨k', vs⟩ := hd
      intro e he x hx
      by_cases h : k' = k
      · rw [insertGroup_cons_pos rest k' vs k v h] at he
        rcases List.mem_cons.mp he with he | he
        · subst he
          rcases List.mem_append.mp hx with hx | hx
          · exact hg (k', vs) (List.mem_cons_self _ _) x hx
          · rw [List.mem_singleton] at hx
            subst hx
            rw [hv, h]
        · exact hg e (List.mem_cons_of_mem _ he) x hx
      · rw [insertGroup_cons_neg rest k' vs k v h] at he
        rcases List.mem_cons.mp he with he | he
        · subst he
          exact hg (k', vs) (List.mem_cons_self _ _) x hx
        · exact ih (fun e' he' x' hx' => hg e' (List.mem_cons_of_mem _ he') x' hx') e he x hx

theorem planGroups_sound (lookup : Int → Int) (ids : List Int) :
    ∀ e ∈ planGroups lookup ids, ∀ x ∈ e.2, lookup x = e.1 := by
  have aux : ∀ acc : List (Int × List Int), (∀ e ∈ acc, ∀ x ∈ e.2, lookup x = e.1) →
      ∀ e ∈ ids.foldl (fun acc id => insertGroup acc (lookup id) id) acc, ∀ x ∈ e.2, lookup x = e.1 := by
    induction ids with
    | nil => intro acc hacc; simpa using hacc
    | cons i rest ih =>
        intro acc hacc
        exact List.foldl_cons _ _ ▸ ih _ (insertGroup_sound lookup acc (lookup i) i hacc rfl)
  exact aux [] (by simp)

theorem insertGroup_keys_sub (g : List (Int × List Int)) (k v : Int) :
    ∀ x ∈ (insertGroup g k v).map Prod.fst, x ∈ g.map Prod.fst ∨ x = k := by
  induction g with
  | nil =>
      intro x hx
      right
      simpa [insertGroup] using hx
  | cons hd rest ih =>
      obtain ⟨k', vs⟩ := hd
      intro x hx
      by_cases h : k' = k
      · rw [insertGroup_cons_pos rest k' vs k v h] at hx
        simp only [List.map_cons, List.mem_cons] at hx
        rcases hx with hx | hx
        · exact Or.inl (List.mem_cons.mpr (Or.inl hx))
        · exact Or.inl (List.mem_cons.mpr (Or.inr hx))
      · rw [insertGroup_cons_neg rest k' vs k v h] at hx
        simp only [List.map_cons, List.mem_cons] at hx
        rcases hx with hx | hx
        · exact Or.inl (List.mem_cons.mpr (Or.inl hx))
        · rcases ih x hx with h' | h'
          · exact Or.inl (List.mem_cons.mpr (Or.inr h'))
          · exact Or.inr h'

theorem insertGroup_keys_nodup (g : List (Int × List Int)) (k v : Int)
    (h : (g.map Prod.fst).Nodup) : ((insertGroup g k v).map Prod.fst).Nodup := by
  induction g with
  | nil => simp [insertGroup]
  | cons hd rest ih =>
      obtain ⟨k', vs⟩ := hd
      simp only [List.map_cons, List.nodup_cons] at h
      by_cases hk : k' = k
      · rw [insertGroup_cons_pos rest k' vs k v hk]
        simpa [List.nodup_cons] using h
      · rw [insertGroup_cons_neg rest k' vs k v hk]
        simp only [List.map_cons, List.nodup_cons]
        refine ⟨?_, ih h.2⟩
        intro hmem
        rcases insertGroup_keys_sub rest k v k' hmem with h' | h'
        · exact h.1 h'
        · exact hk h'

theorem planGroups_keys_nodup (lookup : Int → Int) (ids : List Int) :
    ((planGroups lookup ids).map Prod.fst).Nodup := by
  have aux : ∀ acc : List (Int × List Int), (acc.map Prod.fst).Nodup →
      ((ids.foldl (fun acc id => insertGroup acc (lookup id) id) acc).map Prod.fst).Nodup := by
    induction ids with
    | nil => intro acc hacc; simpa using hacc
    | cons i rest ih =>
        intro acc hacc
        exact List.foldl_cons _ _ ▸ ih _ (insertGroup_keys_nodup acc (lookup i) i hacc)
  exact aux [] (by simp)

/-- Claim C2: the per-region id groups planned by `DoAsync` partition the
input id set: the union (as a multiset) of the groups' ids is a permutation
of the input ids, and distinct groups carry disjoint id sets. -/
theorem C2_fanout_groups_partition (lookup : Int → Int) (ids : List Int) :
    (((planGroups lookup ids).map Prod.snd).join).Perm ids ∧
    List.Pairwise (fun e1 e2 => ∀ v, v ∈ e1.2 → v ∉ e2.2) (planGroups lookup ids) := by
  constructor
  · simpa using planGroups_join_perm_aux lookup ids []
  · have hkeys := planGroups_keys_nodup lookup ids
    have hsound := planGroups_sound lookup ids
    have hkeys' : List.Pairwise (fun e1 e2 : Int × List Int => e1.1 ≠ e2.1)
        (planGroups lookup ids) := List.pairwise_map.mp hkeys
    refine List.Pairwise.imp_of_mem ?_ hkeys'
    intro e1 e2 h1 h2 hne v hv1 hv2
    exact hne (by rw [← hsound e1 h1 v hv1]; exact hsound e2 h2 v hv2)

theorem latchStatus_absorb (e : Nat) (rest : List (Option Nat)) :
    rest.foldl latchStatus (some e) = some e := by
  induction rest with
  | nil => rfl
  | cons o rest ih => cases o <;> simp [latchStatus, ih]

/-- Claim C3: across any arrival order of callback outcomes, the latched
task status is the first non-OK outcome (`findSome?` of the sequence), and
once the status is non-OK no later outcome overwrites it. -/
theorem C3_first_error_latched (outcomes : List (Option Nat)) :
    statusAfter outcomes = outcomes.findSome? id ∧
    ∀ (e : Nat) (tail : List (Option Nat)), List.foldl latchStatus (some e) tail = some e := by
  refine ⟨?_, fun e tail => latchStatus_absorb e tail⟩
  induction outcomes with
  | nil => rfl
  | cons o rest ih =>
      cases o with
      | none => exact ih
      | some e => exact latchStatus_absorb e rest

theorem checkPositiveIds_ok_iff (ids : List Int) :
    checkPositiveIds ids = Except.ok () ↔ ∀ id ∈ ids, 0 < id := by
  induction ids with
  | nil => simp [checkPositiveIds]
  | cons id rest ih =>
      by_cases h : id ≤ 0
      · simp only [checkPositiveIds, if_pos h, List.forall_mem_cons]
        constructor
        · intro hx; exact Except.noConfusion hx
        · rintro ⟨h1, _⟩; omega
      · simp only [checkPositiveIds, if_neg h, List.forall_mem_cons]
        rw [ih]
        constructor
        · intro hall; exact ⟨by omega, hall⟩
        · rintro ⟨_, hall⟩; exact hall

theorem insertIds_ok_iff (ids : List Int) :
    ∀ seen, (insertIds seen ids = Except.ok () ↔ ids.Nodup ∧ ∀ id ∈ ids, id ∉ seen) := by
  induction ids with
  | nil => intro seen; simp [insertIds]
  | cons id rest ih =>
      intro seen
      by_cases h : id ∈ seen
      · simp only [insertIds, if_pos h]
        constructor
        · intro hx; exact Except.noConfusion hx
        · rintro ⟨_, hall⟩; exact absurd h (hall id (List.mem_cons_self _ _))
      · simp only [insertIds, if_neg h]
        rw [ih (id :: seen)]
        constructor
        · rintro ⟨hnd, hall⟩
          refine ⟨List.nodup_cons.mpr ⟨?_, hnd⟩, ?_⟩
          · intro hmem
            exact (hall id hmem) (List.mem_cons_self _ _)
          · intro x hx
            rcases List.mem_cons.mp hx with rfl | hx'
            · exact h
            · intro hxs
              exact (hall x hx') (List.mem_cons_of_mem _ hxs)
        · rintro ⟨hnd, hall⟩
          rw [List.nodup_cons] at hnd
          refine ⟨hnd.2, ?_⟩
          intro x hx hmem
          rcases List.mem_cons.mp hmem with rfl | hmem'
          · exact hnd.1 hx
          · exact hall x (List.mem_cons_of_mem _ hx) hmem'

theorem docIdsCheck_ok_iff (ids : List Int) :
    ∀ seen, (docIdsCheck seen ids = Except.ok () ↔
      (∀ id ∈ ids, 0 < id) ∧ ids.Nodup ∧ ∀ id ∈ ids, id ∉ seen) := by
  induction ids with
  | nil => intro seen; simp [docIdsCheck]
  | cons id rest ih =>
      intro seen
      by_cases h0 : id ≤ 0
      · simp only [docIdsCheck, if_pos h0]
        constructor
        · intro hx; exact Except.noConfusion hx
        · rintro ⟨hpos, _, _⟩
          have := hpos id (List.mem_cons_self _ _)
          omega
      · by_cases h1 : id ∈ seen
        · simp only [docIdsCheck, if_neg h0, if_pos h1]
          constructor
          · intro hx; exact Except.noConfusion hx
          · rintro ⟨_, _, hall⟩
            exact absurd h1 (hall id (List.mem_cons_self _ _))
        · simp only [docIdsCheck, if_neg h0, if_neg h1]
          rw [ih (id :: seen)]
          constructor
          · rintro ⟨hpos, hnd, hni⟩
            refine ⟨?_, List.nodup_cons.mpr ⟨?_, hnd⟩, ?_⟩
            · intro x hx
              rcases List.mem_cons.mp hx with rfl | hx'
              · omega
              · exact hpos x hx'
            · intro hid
              exact (hni id hid) (List.mem_cons_self _ _)
            · intro x hx
              rcases List.mem_cons.mp hx with rfl | hx'
              · exact h1
              · intro hxs
                exact (hni x hx') (List.mem_cons_of_mem _ hxs)
          · rintro ⟨hpos, hnd, hns⟩
            rw [List.nodup_cons] at hnd
            refine ⟨fun x hx => hpos x (List.mem_cons_of_mem _ hx), hnd.2, ?_⟩
            intro x hx hmem
            rcases List.mem_cons.mp hmem with rfl | hmem'
            · exact hnd.1 hx
            · exact hns x (List.mem_cons_of_mem _ hx) hmem'

/-- Claim C5 counterexample: `DocumentBatchQueryTask::Init` accepts an
empty id list (its validation loop body never runs), contradicting the
claim that batch-get rejects empty input in `Init`. -/
theorem C5_empty_batch_get_accepted : DocumentBatchQueryTaskInit [] = Except.ok () := rfl

/-- Claim C5 as amended: `VectorUpsertTask::Init` succeeds exactly on a
non-empty input whose ids are all positive and pairwise distinct, while
`DocumentBatchQueryTask::Init` succeeds exactly when the ids are all
positive and pairwise distinct (an empty input is accepted); every
rejection is returned synchronously by `Init`, before any RPC exists. -/
theorem C5_init_validation (ids : List Int) :
    (VectorUpsertTaskInit ids = Except.ok () ↔
      ids ≠ [] ∧ (∀ id ∈ ids, 0 < id) ∧ ids.Nodup) ∧
    (DocumentBatchQueryTaskInit ids = Except.ok () ↔ (∀ id ∈ ids, 0 < id) ∧ ids.Nodup) := by
  constructor
  · unfold VectorUpsertTaskInit
    by_cases he : ids.isEmpty = true
    · have hnil : ids = [] := by simpa using he
      subst hnil
      simp
    · rw [if_neg he]
      have hne : ids ≠ [] := by
        intro h
        subst h
        exact he rfl
      cases hc : checkPositiveIds ids with
      | error e =>
          constructor
          · intro hx; exact Except.noConfusion hx
          · rintro ⟨_, hpos, _⟩
            have hok := (checkPositiveIds_ok_iff ids).mpr hpos
            exact Except.noConfusion (hc.symm.trans hok)
      | ok u =>
          cases u
          rw [insertIds_ok_iff ids []]
          constructor
          · rintro ⟨hnd, _⟩
            exact ⟨hne, (checkPositiveIds_ok_iff ids).mp hc, hnd⟩
          · rintro ⟨_, _, hnd⟩
            exact ⟨hnd, by simp⟩
  · unfold DocumentBatchQueryTaskInit
    rw [docIdsCheck_ok_iff ids []]
    simp

/-- Claim C7 counterexample: a successful batch-get response whose
document count disagrees with the request id count hits the fatal
`CHECK_EQ` (document_batch_query_task.cc:138), modelled by `none` (process
abort) - the callback does not continue, contradicting the claim that the
mismatch is only logged and never fatal. -/
theorem C7_doc_size_mismatch_aborts :
    DocumentBatchQueryRpcCallback (none, [], [1, 2]) [1, 2] (DocRpcOutcome.ok []) = none := rfl

/-- Claim C7 as amended: for search, a response whose batch count disagrees
with the request is only logged - the callback never aborts, leaves the
status untouched and merges every entry that came back; for batch-get, the
callback survives exactly when the response document count equals the
request id count (a mismatch is a fatal `CHECK_EQ`). -/
theorem C7_size_mismatch_handling :
    (∀ (st : PartTaskState) (region_id : Int) (batches : List (List VectorWithDistance)) (q : Nat),
      (VectorSearchRpcCallback st region_id (SearchRpcOutcome.ok batches)).search_result q
        = st.search_result q ++ batches.getD q [] ∧
      (VectorSearchRpcCallback st region_id (SearchRpcOutcome.ok batches)).status = st.status) ∧
    ∀ (st : Option Nat × List DocWithId × List Int) (reqIds : List Int) (docs : List DocWithId),
      (DocumentBatchQueryRpcCallback st reqIds (DocRpcOutcome.ok docs)).isSome
        = decide (docs.length = reqIds.length) := by
  constructor
  · intro st rid batches q
    exact ⟨rfl, rfl⟩
  · intro st reqIds docs
    by_cases h : docs.length = reqIds.length <;> simp [DocumentBatchQueryRpcCallback, h]

/-- Claim C10: a task whose pending set is empty at `DoAsync` schedules no
RPC and completes immediately with status OK; in particular a batch-query
built from an empty id list passes `Init` and, with no RPC outcomes, ends
OK with an empty document list. -/
theorem C10_empty_pending_immediate (lookup : Int → Int) :
    VectorUpsertTaskDoAsync lookup [] = DoAsyncOutcome.immediate none ∧
    DocumentBatchQueryTaskDoAsync lookup [] = DoAsyncOutcome.immediate none ∧
    VectorSearchTaskDoAsync [] = DoAsyncOutcome.immediate none ∧
    DocumentBatchQueryTaskInit [] = Except.ok () ∧
    runDocumentBatchQueryTask [] [] = some (none, [], []) :=
  ⟨rfl, rfl, rfl, rfl, rfl⟩

theorem VectorSearchRpcCallback_result_mono (st : PartTaskState) (rid : Int)
    (o : SearchRpcOutcome) (q : Nat) (v : VectorWithDistance)
    (h : v ∈ st.search_result q) : v ∈ (VectorSearchRpcCallback st rid o).search_result q := by
  cases o with
  | ok batches =>
      simp only [VectorSearchRpcCallback, mergeBatchResults]
      exact List.mem_append_left _ h
  | fail e =>
      by_cases he : e = EDISKANN_IS_NO_DATA <;> simp [VectorSearchRpcCallback, he, h]

theorem primaryFold_status (l : List (Int × SearchRpcOutcome)) :
    ∀ st : PartTaskState,
      (∀ o ∈ l, o.2.isOk = true ∨ o.2 = SearchRpcOutcome.fail EDISKANN_IS_NO_DATA) →
      (l.foldl (fun st o => VectorSearchRpcCallback st o.1 o.2) st).status = st.status := by
  induction l with
  | nil => intro st _; rfl
  | cons o rest ih =>
      intro st h
      simp only [List.foldl_cons]
      rw [ih _ (fun o' ho' => h o' (List.mem_cons_of_mem _ ho'))]
      rcases h o (List.mem_cons_self _ _) with hok | hnd
      · cases ho : o.2 with
        | ok batches => simp [VectorSearchRpcCallback, ho]
        | fail e =>
            rw [ho] at hok
            simp [SearchRpcOutcome.isOk] at hok
      · simp [VectorSearchRpcCallback, hnd]

theorem primaryFold_nodata (l : List (Int × SearchRpcOutcome)) :
    ∀ st : PartTaskState,
      (l.foldl (fun st o => VectorSearchRpcCallback st o.1 o.2) st).nodata_region_ids
        = st.nodata_region_ids ++ (l.filter (fun o => o.2.isNoData)).map Prod.fst := by
  induction l with
  | nil => intro st; simp
  | cons o rest ih =>
      intro st
      simp only [List.foldl_cons]
      rw [ih]
      cases ho : o.2 with
      | ok batches =>
          simp [VectorSearchRpcCallback, ho, List.filter_cons, SearchRpcOutcome.isNoData]
      | fail e =>
          by_cases he : e = EDISKANN_IS_NO_DATA
          · subst he
            simp [VectorSearchRpcCallback, ho, List.filter_cons, SearchRpcOutcome.isNoData,
              List.append_assoc]
          · simp [VectorSearchRpcCallback, ho, he, List.filter_cons, SearchRpcOutcome.isNoData]

theorem primaryFold_result_mono (l : List (Int × SearchRpcOutcome)) :
    ∀ (st : PartTaskState) (q : Nat) (v : VectorWithDistance),
      v ∈ st.search_result q →
      v ∈ (l.foldl (fun st o => VectorSearchRpcCallback st o.1 o.2) st).search_result q := by
  induction l with
  | nil => intro st q v h; exact h
  | cons o rest ih =>
      intro st q v h
      simp only [List.foldl_cons]
      exact ih _ q v (VectorSearchRpcCallback_result_mono st o.1 o.2 q v h)

theorem primaryFold_result_content (l : List (Int × SearchRpcOutcome)) :
    ∀ (st : PartTaskState) (rid : Int) (batches : List (List VectorWithDistance)),
      (rid, SearchRpcOutcome.ok batches) ∈ l →
      ∀ (q : Nat) (v : VectorWithDistance), v ∈ batches.getD q [] →
        v ∈ (l.foldl (fun st o => VectorSearchRpcCallback st o.1 o.2) st).search_result q := by
  induction l with
  | nil => intro st rid batches h; cases h
  | cons o rest ih =>
      intro st rid batches h q v hv
      simp only [List.foldl_cons]
      rcases List.mem_cons.mp h with rfl | h'
      · refine primaryFold_result_mono rest _ q v ?_
        simp only [VectorSearchRpcCallback, mergeBatchResults]
        exact List.mem_append_right _ hv
      · exact ih _ rid batches h' q v hv

theorem NodataCallback_result_mono (st : PartTaskState) (o : SearchRpcOutcome) (q : Nat)
    (v : VectorWithDistance) (h : v ∈ st.search_result q) :
    v ∈ (NodataRegionRpcCallback st o).search_result q := by
  cases o with
  | ok batches =>
      simp only [NodataRegionRpcCallback, mergeBatchResults]
      exact List.mem_append_left _ h
  | fail e => simpa [NodataRegionRpcCallback] using h

theorem fallbackFold_status (l : List SearchRpcOutcome) :
    ∀ st : PartTaskState, (∀ o ∈ l, o.isOk = true) →
      (l.foldl NodataRegionRpcCallback st).status = st.status := by
  induction l with
  | nil => intro st _; rfl
  | cons o rest ih =>
      intro st h
      simp only [List.foldl_cons]
      rw [ih _ (fun o' ho' => h o' (List.mem_cons_of_mem _ ho'))]
      cases ho : o with
      | ok batches => simp [NodataRegionRpcCallback]
      | fail e =>
          have := h o (List.mem_cons_self _ _)
          rw [ho] at this
          simp [SearchRpcOutcome.isOk] at this

theorem fallbackFold_result_mono (l : List SearchRpcOutcome) :
    ∀ (st : PartTaskState) (q : Nat) (v : VectorWithDistance),
      v ∈ st.search_result q → v ∈ (l.foldl NodataRegionRpcCallback st).search_result q := by
  induction l with
  | nil => intro st q v h; exact h
  | cons o rest ih =>
      intro st q v h
      simp only [List.foldl_cons]
      exact ih _ q v (NodataCallback_result_mono st o q v h)

theorem fallbackFold_result_content (l : List SearchRpcOutcome) :
    ∀ (st : PartTaskState) (batches : List (List VectorWithDistance)),
      SearchRpcOutcome.ok batches ∈ l →
      ∀ (q : Nat) (v : VectorWithDistance), v ∈ batches.getD q [] →
        v ∈ (l.foldl NodataRegionRpcCallback st).search_result q := by
  induction l with
  | nil => intro st batches h; cases h
  | cons o rest ih =>
      intro st batches h q v hv
      simp only [List.foldl_cons]
      rcases List.mem_cons.mp h with rfl | h'
      · refine fallbackFold_result_mono rest _ q v ?_
        simp only [NodataRegionRpcCallback, mergeBatchResults]
        exact List.mem_append_right _ hv
      · exact ih _ batches h' q v hv

/-- Claim C4: when every primary RPC of a search part-task returns either
OK or `EDISKANN_IS_NO_DATA`, and one successful response arrives per issued
brute-force RPC, then: the nodata errors are not latched (primary status
stays OK); the queued nodata regions are exactly the nodata outcomes' region
ids in arrival order; exactly one brute-force RPC per nodata region is
built, each carrying the parameter with the DiskANN sub-message cleared and
`use_brute_force` set; the final status is OK; and the accumulator at
completion contains the candidates of every primary success and every
fallback success. -/
theorem C4_diskann_fallback (p : VectorSearchParameterPB)
    (primary : List (Int × SearchRpcOutcome)) (fallback : List SearchRpcOutcome)
    (hprimary : ∀ o ∈ primary,
      o.2.isOk = true ∨ o.2 = SearchRpcOutcome.fail EDISKANN_IS_NO_DATA)
    (hfallback : ∀ o ∈ fallback, o.isOk = true)
    (hcount : fallback.length = (bruteForceRpcs p (runPrimaryPhase primary)).length) :
    (runPrimaryPhase primary).status = none ∧
    (runPrimaryPhase primary).nodata_region_ids
      = (primary.filter (fun o => o.2.isNoData)).map Prod.fst ∧
    bruteForceRpcs p (runPrimaryPhase primary)
      = (runPrimaryPhase primary).nodata_region_ids.map (fun rid => (rid, bruteForceParameter p)) ∧
    (∀ r ∈ bruteForceRpcs p (runPrimaryPhase primary),
      r.2.diskann = none ∧ r.2.use_brute_force = true) ∧
    (runPartTask primary fallback).status = none ∧
    (∀ rid batches, (rid, SearchRpcOutcome.ok batches) ∈ primary →
      ∀ (q : Nat) (v : VectorWithDistance), v ∈ batches.getD q [] →
        v ∈ (runPartTask primary fallback).search_result q) ∧
    (∀ batches, SearchRpcOutcome.ok batches ∈ fallback →
      ∀ (q : Nat) (v : VectorWithDistance), v ∈ batches.getD q [] →
        v ∈ (runPartTask primary fallback).search_result q) := by
  have hst : (runPrimaryPhase primary).status = none :=
    primaryFold_status primary initialPartState hprimary
  have hnodata : (runPrimaryPhase primary).nodata_region_ids
      = (primary.filter (fun o => o.2.isNoData)).map Prod.fst := by
    simpa using primaryFold_nodata primary initialPartState
  have hbrute : bruteForceRpcs p (runPrimaryPhase primary)
      = (runPrimaryPhase primary).nodata_region_ids.map (fun rid => (rid, bruteForceParameter p)) := by
    unfold bruteForceRpcs
    by_cases hc : (runPrimaryPhase primary).status = none ∧
        (runPrimaryPhase primary).nodata_region_ids ≠ []
    · simp [hc]
    · have hn : (runPrimaryPhase primary).nodata_region_ids = [] := by
        by_contra hne
        exact hc ⟨hst, hne⟩
      simp [hc, hn]
  refine ⟨hst, hnodata, hbrute, ?_, ?_, ?_, ?_⟩
  · intro r hr
    rw [hbrute] at hr
    rcases List.mem_map.mp hr with ⟨rid, _, rfl⟩
    exact ⟨rfl, rfl⟩
  · unfold runPartTask
    by_cases hc : (runPrimaryPhase primary).status = none ∧
        (runPrimaryPhase primary).nodata_region_ids ≠ []
    · rw [if_pos hc]
      rw [fallbackFold_status fallback _ hfallback]
      exact hst
    · rw [if_neg hc]
      exact hst
  · intro rid batches hmem q v hv
    have hin : v ∈ (runPrimaryPhase primary).search_result q :=
      primaryFold_result_content primary initialPartState rid batches hmem q v hv
    unfold runPartTask
    by_cases hc : (runPrimaryPhase primary).status = none ∧
        (runPrimaryPhase primary).nodata_region_ids ≠ []
    · rw [if_pos hc]
      exact fallbackFold_result_mono fallback _ q v hin
    · rw [if_neg hc]
      exact hin
  · intro batches hmem q v hv
    unfold runPartTask
    by_cases hc : (runPrimaryPhase primary).status = none ∧
        (runPrimaryPhase primary).nodata_region_ids ≠ []
    · rw [if_pos hc]
      exact fallbackFold_result_content fallback _ batches hmem q v hv
    · exfalso
      have hn : (runPrimaryPhase primary).nodata_region_ids = [] := by
        by_contra hne
        exact hc ⟨hst, hne⟩
      rw [hbrute, hn] at hcount
      simp only [List.map_nil, List.length_nil] at hcount
      rw [List.length_eq_zero.mp hcount] at hmem
      cases hmem

/-- Witness for C4: the S5-style scenario - regions 10 and 12 answer OK,
region 11 reports nodata, the single brute-force retry succeeds. -/
theorem C4_diskann_fallback_witness :
    ((∀ o ∈ samplePrimary,
        o.2.isOk = true ∨ o.2 = SearchRpcOutcome.fail EDISKANN_IS_NO_DATA) ∧
      (∀ o ∈ sampleFallback, o.isOk = true) ∧
      sampleFallback.length = (bruteForceRpcs sampleParameter (runPrimaryPhase samplePrimary)).length) ∧
    ((runPrimaryPhase samplePrimary).status = none ∧
    (runPrimaryPhase samplePrimary).nodata_region_ids
      = (samplePrimary.filter (fun o => o.2.isNoData)).map Prod.fst ∧
    bruteForceRpcs sampleParameter (runPrimaryPhase samplePrimary)
      = (runPrimaryPhase samplePrimary).nodata_region_ids.map
          (fun rid => (rid, bruteForceParameter sampleParameter)) ∧
    (∀ r ∈ bruteForceRpcs sampleParameter (runPrimaryPhase samplePrimary),
      r.2.diskann = none ∧ r.2.use_brute_force = true) ∧
    (runPartTask samplePrimary sampleFallback).status = none ∧
    (∀ rid batches, (rid, SearchRpcOutcome.ok batches) ∈ samplePrimary →
      ∀ (q : Nat) (v : VectorWithDistance), v ∈ batches.getD q [] →
        v ∈ (runPartTask samplePrimary sampleFallback).search_result q) ∧
    (∀ batches, SearchRpcOutcome.ok batches ∈ sampleFallback →
      ∀ (q : Nat) (v : VectorWithDistance), v ∈ batches.getD q [] →
        v ∈ (runPartTask samplePrimary sampleFallback).search_result q)) :=
  ⟨⟨by decide, by decide, by decide⟩,
    C4_diskann_fallback sampleParameter samplePrimary sampleFallback
      (by decide) (by decide) (by decide)⟩

theorem survivingDocs_cons (o : List Int × DocRpcOutcome) (rest : List (List Int × DocRpcOutcome)) :
    survivingDocs (o :: rest)
      = (match o.2 with
         | DocRpcOutcome.ok docs => docs.filter (fun d => decide (0 < d.id))
         | DocRpcOutcome.fail _ => []) ++ survivingDocs rest := by
  simp [survivingDocs]

theorem docFold_characterization (outcomes : List (List Int × DocRpcOutcome)) :
    ∀ st : Option Nat × List DocWithId × List Int,
      (∀ o ∈ outcomes, docSizeOk o = true) →
      ∃ pend,
        outcomes.foldl
          (fun acc o => acc.bind (fun st => DocumentBatchQueryRpcCallback st o.1 o.2)) (some st)
        = some ((outcomes.map docOutcomeStatus).foldl latchStatus st.1,
            st.2.1 ++ survivingDocs outcomes, pend) := by
  induction outcomes with
  | nil =>
      rintro ⟨s, docs, pend⟩ _
      exact ⟨pend, by simp [survivingDocs]⟩
  | cons o rest ih =>
      rintro ⟨s, docs, pend⟩ hall
      have hsz := hall o (List.mem_cons_self _ _)
      cases hoc : o.2 with
      | fail e =>
          obtain ⟨pend', hp⟩ := ih (latchStatus s (some e), docs, pend)
            (fun o' ho' => hall o' (List.mem_cons_of_mem _ ho'))
          refine ⟨pend', ?_⟩
          have hstep : ((some ((s, docs, pend) : Option Nat × List DocWithId × List Int)).bind
              (fun st => DocumentBatchQueryRpcCallback st o.1 o.2))
              = some (latchStatus s (some e), docs, pend) := by
            simp [DocumentBatchQueryRpcCallback, hoc]
          rw [List.foldl_cons, hstep, hp]
          simp [docOutcomeStatus, hoc, survivingDocs_cons, latchStatus]
      | ok ds =>
          have hlen : ds.length = o.1.length := by
            have h := hsz
            simp [docSizeOk, hoc] at h
            exact h
          obtain ⟨pend', hp⟩ := ih (s, docs ++ ds.filter (fun d => decide (0 < d.id)),
              pend.filter (fun id => decide (id ∉ o.1)))
            (fun o' ho' => hall o' (List.mem_cons_of_mem _ ho'))
          refine ⟨pend', ?_⟩
          have hstep : ((some ((s, docs, pend) : Option Nat × List DocWithId × List Int)).bind
              (fun st => DocumentBatchQueryRpcCallback st o.1 o.2))
              = some (s, docs ++ ds.filter (fun d => decide (0 < d.id)),
                  pend.filter (fun id => decide (id ∉ o.1))) := by
            simp [DocumentBatchQueryRpcCallback, hoc, hlen]
          rw [List.foldl_cons, hstep, hp]
          simp [docOutcomeStatus, hoc, survivingDocs_cons, latchStatus, List.append_assoc]

theorem subFold_characterization (outs : List SubTaskOutcome) :
    ∀ st : Option Nat × (Nat → List VectorWithDistance),
      (outs.foldl SubTaskCallback st).1 = (outs.map subOutcomeStatus).foldl latchStatus st.1 ∧
      ∀ q, (outs.foldl SubTaskCallback st).2 q = st.2 q ++ mergedSubResults outs q := by
  induction outs with
  | nil =>
      intro st
      exact ⟨rfl, fun q => by simp [mergedSubResults]⟩
  | cons o rest ih =>
      intro st
      cases o with
      | ok res =>
          refine ⟨?_, ?_⟩
          · have h1 := (ih (SubTaskCallback st (SubTaskOutcome.ok res))).1
            simp only [List.foldl_cons, List.map_cons]
            rw [h1]
            rfl
          · intro q
            have h2 := (ih (SubTaskCallback st (SubTaskOutcome.ok res))).2 q
            simp only [List.foldl_cons]
            rw [h2]
            simp [SubTaskCallback, mergedSubResults, List.append_assoc]
      | fail e =>
          refine ⟨?_, ?_⟩
          · have h1 := (ih (SubTaskCallback st (SubTaskOutcome.fail e))).1
            simp only [List.foldl_cons, List.map_cons]
            rw [h1]
            rfl
          · intro q
            have h2 := (ih (SubTaskCallback st (SubTaskOutcome.fail e))).2 q
            simp only [List.foldl_cons]
            rw [h2]
            simp [SubTaskCallback, mergedSubResults]

/-- Claim C6 counterexample: a batch-query whose first RPC succeeds with
one document and whose second RPC fails completes with the non-OK status 7
while its result still contains the fetched document - the partial result
is not discarded, contradicting "failure with no results". -/
theorem C6_partial_results_counterexample :
    runDocumentBatchQueryTask [1, 2]
      [([1], DocRpcOutcome.ok [{ id := 1 }]), ([2], DocRpcOutcome.fail 7)]
      = some (some 7, [{ id := 1 }], [2]) ∧
    ([({ id := 1 } : DocWithId)] : List DocWithId) ≠ [] :=
  ⟨by decide, by decide⟩

/-- Claim C6 as amended: partial results accumulated before a failure are
retained, not discarded.  A batch-query task completes with the first-error
status while its result holds exactly the surviving documents of every RPC
that succeeded; a search task constructs its per-query sorted and truncated
result lists from the candidates of the successful sub-tasks even when the
completion status is non-OK.  (Upsert additionally keeps its still-pending
ids, as the claim already stated.) -/
theorem C6_results_retained_not_discarded (pending0 : List Int)
    (outcomes : List (List Int × DocRpcOutcome))
    (hsizes : ∀ o ∈ outcomes, docSizeOk o = true)
    (topk : Nat) (ers : Bool) (Q : Nat) (outs : List SubTaskOutcome) :
    (∃ pend, runDocumentBatchQueryTask pending0 outcomes
        = some (statusAfter (outcomes.map docOutcomeStatus), survivingDocs outcomes, pend)) ∧
    VectorSearchTaskRun topk ers Q outs
      = (statusAfter (outs.map subOutcomeStatus),
         (List.range Q).map (fun q => finishQuery topk ers (mergedSubResults outs q))) := by
  constructor
  · obtain ⟨pend, hp⟩ := docFold_characterization outcomes (none, [], pending0) hsizes
    exact ⟨pend, by simpa [runDocumentBatchQueryTask, statusAfter] using hp⟩
  · have h := subFold_characterization outs (none, fun _ => [])
    unfold VectorSearchTaskRun
    refine Prod.ext ?_ ?_
    · simpa [statusAfter] using h.1
    · refine List.map_congr_left ?_
      intro q _
      rw [h.2 q]
      simp

/-- Witness for C6: the counterexample scenario for the batch-query
conjunct together with a failing search sub-task. -/
theorem C6_results_retained_witness :
    (∀ o ∈ [(([1] : List Int), DocRpcOutcome.ok [{ id := 1 }]), ([2], DocRpcOutcome.fail 7)],
      docSizeOk o = true) ∧
    ((∃ pend, runDocumentBatchQueryTask [1, 2]
        [([1], DocRpcOutcome.ok [{ id := 1 }]), ([2], DocRpcOutcome.fail 7)]
        = some (statusAfter ([([1], DocRpcOutcome.ok [{ id := 1 }]),
              ([2], DocRpcOutcome.fail 7)].map docOutcomeStatus),
            survivingDocs [([1], DocRpcOutcome.ok [{ id := 1 }]), ([2], DocRpcOutcome.fail 7)],
            pend)) ∧
      VectorSearchTaskRun 3 false 1 [SubTaskOutcome.fail 5]
        = (statusAfter ([SubTaskOutcome.fail 5].map subOutcomeStatus),
           (List.range 1).map (fun q =>
             finishQuery 3 false (mergedSubResults [SubTaskOutcome.fail 5] q)))) :=
  ⟨by decide,
    C6_results_retained_not_discarded [1, 2]
      [([1], DocRpcOutcome.ok [{ id := 1 }]), ([2], DocRpcOutcome.fail 7)]
      (by decide) 3 false 1 [SubTaskOutcome.fail 5]⟩

end Theorems

end DingoSDK
